import Mathlib

/-!
Verification development for the ensemble-cache-poc repository: a shallow
embedding of the FastAPI cache endpoints (src/app/api/v1/endpoints.py), the
connection configuration (src/app/core/cache.py), the request models
(src/app/models/item.py, src/app/models/response.py) and the workflow
coordinator (src/scripts/workflow.py).

Modelling conventions:
- The backing Redis store is an association list from keys to entries; an entry
  carries its stored value and an optional absolute expiry instant.  Time is a
  natural number `now` passed explicitly; `datetime.now(UTC).isoformat()` is
  abstracted as `isoformat now`, an opaque string rendering of the clock.
- JSON serialization is modelled structurally: a stored raw value is either a
  decoded JSON document or the marker `Stored.invalid` (bytes that are not
  valid JSON), so `json.dumps` followed by `json.loads` is the identity, which
  holds for the real code on all JSON-representable payloads.
- Python `None` rendered inside an f-string becomes the string "None"
  (`pyStrOpt`).  Quote characters inside Python message strings are elided.
- Each endpoint returns `Except HTTPException response`; `Except.error` models
  `raise HTTPException(...)`, and `responseStatus` gives the HTTP status of the
  response (200 for a plain return, as FastAPI does).
- redis-py behaviour at the boundary: `SETEX` with a non-positive expiry is
  rejected by the server ("invalid expire time"), and `setex` with `time=None`
  raises `DataError` while encoding; `TTL` returns -2 for a missing key, -1
  for a key with no expiry; `ConnectionPool.from_url` parses the URL eagerly
  and raises `ValueError` when the port component is not an integer.
-/

namespace EnsembleCache

/-- JSON values as stored in the cache; `obj` is a finite map given as an
association list of fields, matching a decoded Python `dict`. -/
inductive JVal where
  | null : JVal
  | bool (b : Bool) : JVal
  | int (n : Int) : JVal
  | str (s : String) : JVal
  | arr (elems : List JVal) : JVal
  | obj (fields : List (String × JVal)) : JVal

/-- A JSON object body: the fields of a Python `dict`. -/
abbrev JObj := List (String × JVal)

/-- Python `d[k]` / `d.get(k)` on a decoded JSON object: first field named `k`. -/
def jLookup (j : JObj) (k : String) : Option JVal :=
  (j.find? (fun p => p.1 == k)).map (fun p => p.2)

/-- Python `d.get(k)` on a string-valued dict (environment, status payloads,
JSON responses whose relevant fields are strings). -/
def dictGet (d : List (String × String)) (k : String) : Option String :=
  (d.find? (fun p => p.1 == k)).map (fun p => p.2)

/-- Python f-string rendering of an `Optional[str]`: `None` prints as "None". -/
def pyStrOpt : Option String → String
  | none => "None"
  | some s => s

/-- A raw value held by the store under a key: either a decoded JSON document,
or bytes that fail `json.loads` (`invalid`). -/
inductive Stored where
  | invalid : Stored
  | json (j : JObj) : Stored

/-- One Redis entry: the stored raw value and the absolute expiry instant
(`none` means the key has no expiration set). -/
structure Entry where
  value : Stored
  expireAt : Option Nat

/-- The backing store: association list keyed by the cache key.  Writes
prepend; lookups take the first binding; deletes remove every binding, so the
list behaves observationally as a finite map with replace-on-write. -/
abbrev RedisState := List (String × Entry)

/-- First binding for `key`, regardless of liveness. -/
def redisLookup (st : RedisState) (key : String) : Option Entry :=
  (st.find? (fun p => p.1 == key)).map (fun p => p.2)

/-- Whether an entry is still live at instant `now` (expiry is exclusive:
the key is gone once `now` reaches `expireAt`). -/
def entryLive (e : Entry) (now : Nat) : Bool :=
  match e.expireAt with
  | none => true
  | some t => decide (now < t)

/-- Redis `GET`: the raw value when the key is present and not expired. -/
def redisGet (st : RedisState) (now : Nat) (key : String) : Option Stored :=
  match redisLookup st key with
  | some e => if entryLive e now then some e.value else none
  | none => none

/-- Redis `TTL`: -2 when the key is absent or expired, -1 when it exists with
no expiry, otherwise the remaining seconds. -/
def redisTtl (st : RedisState) (now : Nat) (key : String) : Int :=
  match redisLookup st key with
  | some e =>
      if entryLive e now then
        match e.expireAt with
        | none => -1
        | some t => (t : Int) - (now : Int)
      else -2
  | none => -2

/-- Redis `EXISTS` (as a boolean: the count is 0 or 1 for a single key). -/
def redisExists (st : RedisState) (now : Nat) (key : String) : Bool :=
  (redisGet st now key).isSome

/-- redis-py `setex`: rejects `time=None` while encoding (DataError) and a
non-positive expiry at the server ("invalid expire time"); otherwise writes
the value with expiry `now + ttl`. -/
def redisSetex (st : RedisState) (now : Nat) (key : String) (ttl : Option Int)
    (v : Stored) : Except String RedisState :=
  match ttl with
  | none => Except.error "Invalid input of type NoneType"
  | some t =>
      if t ≤ 0 then Except.error "invalid expire time in setex"
      else Except.ok ((key, { value := v, expireAt := some (now + t.toNat) }) :: st)

/-- Redis `DEL` on one key: the count of live keys removed, and the state with
every binding for the key dropped. -/
def redisDelete (st : RedisState) (now : Nat) (key : String) : Nat × RedisState :=
  ((if (redisGet st now key).isSome then 1 else 0),
   st.filter (fun p => p.1 != key))

/-- Abstract rendering of `datetime.now(UTC).isoformat()` at clock reading
`now`: an opaque timestamp string. -/
def isoformat (now : Nat) : String :=
  toString now

/-- Model of `fastapi.HTTPException`: status code and detail message. -/
structure HTTPException where
  status_code : Nat
  detail : String
deriving DecidableEq

/-- HTTP status of an endpoint outcome: a plain return is a 200 response, a
raised `HTTPException` carries its own status. -/
def responseStatus {α : Type} : Except HTTPException α → Nat
  | Except.ok _ => 200
  | Except.error h => h.status_code

/-- Model of `models/item.py` `CacheItem`: request body for the store endpoints.
`ttl_seconds` is `Optional[int] = 3600`. -/
structure CacheItem where
  key : String
  data : JObj
  ttl_seconds : Option Int

/-- How the `ttl_seconds` field arrived in the request body. -/
inductive TtlField where
  | omitted : TtlField
  | null : TtlField
  | value (n : Int) : TtlField

/-- Pydantic parsing of `ttl_seconds: Optional[int] = 3600`: an omitted field
takes the default 3600; an explicit JSON `null` parses to `None`. -/
def parseTtl : TtlField → Option Int
  | TtlField.omitted => some 3600
  | TtlField.null => none
  | TtlField.value n => some n

/-- Model of `models/response.py` `CacheResponse`. -/
structure CacheResponse where
  key : String
  data : JObj
  cached_at : String
  ttl_remaining : Option Int

/-- Response dict of the store endpoint. -/
structure StoreResponse where
  success : Bool
  message : String
  key : String
  ttl_seconds : Option Int
  cached_at : String

/-- Response dict of the delete endpoint. -/
structure DeleteResponse where
  success : Bool
  message : String

/-- Response dict of the exists endpoint.  `ttl_field` is the optional
`ttl_remaining` JSON field: `none` when the field is absent, `some none` when
it is present with value `null`, `some (some t)` when present with integer
`t`. -/
structure ExistsResponse where
  key : String
  exists_flag : Bool
  ttl_field : Option (Option Int)

/-- JSON null / integer for the `original_ttl` envelope field. -/
def jvalOfOptInt : Option Int → JVal
  | none => JVal.null
  | some n => JVal.int n

/-- Endpoint `POST /api/v1/cache` (`store_in_cache` in endpoints.py): builds the
envelope with `cached_at = now`, writes it with `setex`, and maps any
exception to a 500. -/
def store_in_cache (st : RedisState) (now : Nat) (item : CacheItem) :
    Except HTTPException (StoreResponse × RedisState) :=
  let cached_at := isoformat now
  let cache_entry : JObj :=
    [("data", JVal.obj item.data),
     ("cached_at", JVal.str cached_at),
     ("original_ttl", jvalOfOptInt item.ttl_seconds)]
  match redisSetex st now item.key item.ttl_seconds (Stored.json cache_entry) with
  | Except.ok st2 =>
      Except.ok
        ({ success := true,
           message := "Stored " ++ item.key ++ " in cache",
           key := item.key,
           ttl_seconds := item.ttl_seconds,
           cached_at := cached_at }, st2)
  | Except.error e =>
      Except.error { status_code := 500, detail := "Failed to store in cache: " ++ e }

/-- Endpoint `GET /api/v1/cache/{key}` (`get_from_cache` in endpoints.py): 404 when the
key is absent; `json.loads` failure gives the 500 "Invalid JSON data in cache";
the TTL sentinel -1 is translated to `none`; a missing `data` or `cached_at`
field raises `KeyError`, caught by the broad handler as a 500 (its message
never contains "not found", so it is not re-raised as a 404); a payload that
fails `CacheResponse` validation (non-dict data, non-string cached_at) is also
a 500. -/
def get_from_cache (st : RedisState) (now : Nat) (key : String) :
    Except HTTPException CacheResponse :=
  match redisGet st now key with
  | none => Except.error { status_code := 404, detail := "Key " ++ key ++ " not found" }
  | some stored =>
      match stored with
      | Stored.invalid =>
          Except.error { status_code := 500, detail := "Invalid JSON data in cache" }
      | Stored.json cached_entry =>
          let ttlr := redisTtl st now key
          let ttl_remaining : Option Int := if ttlr = -1 then none else some ttlr
          match jLookup cached_entry "data" with
          | none =>
              Except.error { status_code := 500,
                             detail := "Failed to retrieve from cache: KeyError data" }
          | some d =>
              match jLookup cached_entry "cached_at" with
              | none =>
                  Except.error { status_code := 500,
                                 detail := "Failed to retrieve from cache: KeyError cached_at" }
              | some c =>
                  match d, c with
                  | JVal.obj dfields, JVal.str cstr =>
                      Except.ok { key := key, data := dfields,
                                  cached_at := cstr, ttl_remaining := ttl_remaining }
                  | _, _ =>
                      Except.error { status_code := 500,
                                     detail := "Failed to retrieve from cache: validation error" }

/-- Endpoint `DELETE /api/v1/cache/{key}` (`delete_from_cache` in endpoints.py): a zero
deleted-count raises a 404 (whose detail contains "not found", so the broad
handler re-raises it unchanged); otherwise success. -/
def delete_from_cache (st : RedisState) (now : Nat) (key : String) :
    Except HTTPException (DeleteResponse × RedisState) :=
  let r := redisDelete st now key
  if r.1 = 0 then
    Except.error { status_code := 404, detail := "Key " ++ key ++ " not found in cache" }
  else
    Except.ok ({ success := true, message := "Deleted " ++ key ++ " from cache" }, r.2)

/-- Endpoint `GET /api/v1/cache/{key}/exists` (`check_key_exists` in endpoints.py): the
`ttl_remaining` field is only added when the key exists, with the -1 sentinel
translated to `null`. -/
def check_key_exists (st : RedisState) (now : Nat) (key : String) :
    Except HTTPException ExistsResponse :=
  let ex := redisExists st now key
  if ex then
    let ttl := redisTtl st now key
    Except.ok { key := key, exists_flag := ex,
                ttl_field := some (if ttl = -1 then none else some ttl) }
  else
    Except.ok { key := key, exists_flag := ex, ttl_field := none }

/-- Endpoint `GET /api/v1/health` (`health_check` in endpoints.py): the outcome of
`get_redis_connection` plus `ping` is the parameter; both branches return a
plain dict (never raise), with the fields the source writes. -/
def health_check (ping : Except String Unit) (now : Nat) :
    Except HTTPException (List (String × String)) :=
  match ping with
  | Except.ok _ =>
      Except.ok [("status", "healthy"), ("redis", "connected"),
                 ("version", "1.0.0"), ("timestamp", isoformat now)]
  | Except.error e =>
      Except.ok [("status", "unhealthy"), ("redis", "disconnected"), ("error", e),
                 ("version", "1.0.0"), ("timestamp", isoformat now)]

/-- A workflow status payload as returned by `get_workflow_status`: a JSON
dict whose claim-relevant fields (`status`, `error`) are strings. -/
abbrev StatusData := List (String × String)

/-- Outcome of the polling loop in `WorkflowManager.poll_until_complete`.
`outOfScript` is a model artifact: the finite list of scripted job responses
ran out while budget remained (the real job would keep answering). -/
inductive PollResult where
  | completed (payload : StatusData) : PollResult
  | failed (msg : String) : PollResult
  | timeout : PollResult
  | outOfScript : PollResult
deriving DecidableEq

/-- Body of the polling loop (workflow.py lines 88-117).  Poll `n` happens at
elapsed time `n * interval` (the loop sleeps `interval` after each
non-terminal poll); the budget test `elapsed < maxWait` runs before each poll,
and falling out of the loop raises `TimeoutError`.  `COMPLETED` returns the
payload; `FAILED`/`ERROR` raises an exception carrying
`status_data.get("error")` (f-string renders a missing field as "None"); any
other status, including unrecognized ones, continues. -/
def pollGo (interval maxWait : Nat) : List StatusData → Nat → PollResult
  | [], n =>
      if n * interval < maxWait then PollResult.outOfScript else PollResult.timeout
  | s :: rest, n =>
      if n * interval < maxWait then
        let status := (dictGet s "status").getD "UNKNOWN"
        if status = "COMPLETED" then PollResult.completed s
        else if status = "FAILED" ∨ status = "ERROR" then
          PollResult.failed ("Workflow failed: " ++ pyStrOpt (dictGet s "error"))
        else pollGo interval maxWait rest (n + 1)
      else PollResult.timeout

/-- Model of `WorkflowManager.poll_until_complete(run_id, poll_interval=5,
max_wait_time=3600)` over a scripted list of job status payloads. -/
def poll_until_complete (statuses : List StatusData) (poll_interval : Nat := 5)
    (max_wait_time : Nat := 3600) : PollResult :=
  pollGo poll_interval max_wait_time statuses 0

/-- The fixed all-empty-sub-sections placeholder object built in
`run_workflow_with_cache` (workflow.py lines 130-137). -/
def empty_data : JObj :=
  [("demographics", JVal.obj []), ("remits", JVal.obj []),
   ("transactions", JVal.obj []), ("claims", JVal.obj []),
   ("notes", JVal.obj []), ("action", JVal.obj [])]

/-- A cache operation issued by the coordinator through `CacheAPIClient`. -/
inductive CacheOp where
  | storeOp (key : String) (data : JObj) : CacheOp
  | deleteOp (key : String) : CacheOp

/-- Outcome of `run_workflow_with_cache`, with the trace of cache operations
the coordinator issued. -/
inductive WfOutcome where
  | triggerFailed (msg : String) : WfOutcome
  | ok (payload : StatusData) (trace : List CacheOp) : WfOutcome
  | failed (msg : String) (trace : List CacheOp) : WfOutcome
  | timeout (trace : List CacheOp) : WfOutcome
  | outOfScript (trace : List CacheOp) : WfOutcome

/-- The health-response JSON as `CacheAPIClient.health_check` hands it to the
coordinator: the body of the (always 200) health endpoint response. -/
def health_check_fields (ping : Except String Unit) (now : Nat) :
    List (String × String) :=
  match health_check ping now with
  | Except.ok fields => fields
  | Except.error _ => []

/-- Model of `run_workflow_with_cache` (workflow.py lines 120-151): trigger the job;
build the composite key `accountnumber ++ "-" ++ clientid`; call the health
endpoint and store the placeholder only when
`health.get("redis_connected") == "connected" and health.get("status") ==
"healthy"` (the condition exactly as written in the source); poll with the
default interval 5 and budget 3600; on a truthy final status (a non-empty
dict) delete the composite key; poll failures propagate without deleting. -/
def run_workflow_with_cache (trigger : Except String String)
    (ping : Except String Unit) (now : Nat) (statuses : List StatusData)
    (accountnumber clientid : String) : WfOutcome :=
  match trigger with
  | Except.error e => WfOutcome.triggerFailed e
  | Except.ok _ =>
      let key := accountnumber ++ "-" ++ clientid
      let health := health_check_fields ping now
      let trace0 : List CacheOp :=
        if (dictGet health "redis_connected" == some "connected") &&
           (dictGet health "status" == some "healthy") then
          [CacheOp.storeOp key empty_data]
        else []
      match poll_until_complete statuses with
      | PollResult.completed s =>
          WfOutcome.ok s (trace0 ++ (if s.isEmpty then [] else [CacheOp.deleteOp key]))
      | PollResult.failed m => WfOutcome.failed m trace0
      | PollResult.timeout => WfOutcome.timeout trace0
      | PollResult.outOfScript => WfOutcome.outOfScript trace0

/-- Configuration of the redis-py connection pool as built by
`ConnectionPool.from_url` in core/cache.py. -/
structure RedisPoolCfg where
  host : String
  port : Nat
  password : Option String
  ssl : Bool
  max_connections : Nat
deriving DecidableEq

/-- Python `str.lower()` on ASCII configuration strings (character-wise, so
the kernel can evaluate it). -/
def pyLower (s : String) : String :=
  String.mk (s.toList.map Char.toLower)

/-- Split a character list on a separator character (groups between
occurrences, in order). -/
def splitOnChar (c : Char) : List Char → List (List Char)
  | [] => [[]]
  | ch :: rest =>
      match splitOnChar c rest with
      | [] => if ch = c then [[], []] else [[ch]]
      | g :: gs => if ch = c then [] :: g :: gs else (ch :: g) :: gs

/-- Parse a decimal numeral from characters, `none` on any non-digit. -/
def charsToNatAux : List Char → Nat → Option Nat
  | [], acc => some acc
  | ch :: cs, acc =>
      if ch.isDigit then charsToNatAux cs (acc * 10 + (ch.toNat - 48))
      else none

/-- Python `int(<port string>)` as `urllib.parse` applies it to the URL port
component: digits only, otherwise failure. -/
def portToNat? : List Char → Option Nat
  | [] => none
  | cs => charsToNatAux cs 0

/-- Model of `urllib.parse` / redis-py URL parsing as exercised by
`ConnectionPool.from_url("<scheme>://<host>:<port>")`: the component after
the last colon is the port and must parse as an integer, otherwise
`ValueError` ("Port could not be cast to integer value ...") is raised
eagerly at pool construction; the host is the component before it, with the
"//" authority prefix stripped. -/
def parse_url (url : String) : Except String (String × Nat) :=
  match (splitOnChar ':' url.toList).reverse with
  | portCs :: hostCs :: _ =>
      let portStr := String.mk portCs
      let host := String.mk (hostCs.dropWhile (fun c => c = '/'))
      match portToNat? portCs with
      | some p => Except.ok (host, p)
      | none => Except.error ("Port could not be cast to integer value as " ++ portStr)
  | _ => Except.error "invalid url"

/-- Model of `get_redis_connection` in core/cache.py: reads `REDIS_HOST`, `REDIS_PORT`,
`REDIS_PASSWORD`, `REDIS_SSL` from the environment (each `None` when absent),
interpolates them into a URL (Python renders `None` as the string "None"), and
builds the pool from that URL with `max_connections=20`. -/
def get_redis_connection (env : List (String × String)) :
    Except String RedisPoolCfg :=
  let host := dictGet env "REDIS_HOST"
  let port := dictGet env "REDIS_PORT"
  let password := dictGet env "REDIS_PASSWORD"
  let ssl := pyLower ((dictGet env "REDIS_SSL").getD "False") == "true"
  let protocol := if ssl then "rediss" else "redis"
  let url := protocol ++ "://" ++ pyStrOpt host ++ ":" ++ pyStrOpt port
  match parse_url url with
  | Except.ok hp =>
      Except.ok { host := hp.1, port := hp.2, password := password,
                  ssl := ssl, max_connections := 20 }
  | Except.error e => Except.error e

/-- The arguments of the `FastAPI(...)` constructor call in endpoints.py.
FastAPI has a `lifespan` parameter that defaults to no startup/shutdown hook; the
source passes none, so the lifespan manager defined in core/cache.py is never
registered. -/
structure FastAPIApp where
  title : String
  description : String
  version : String
  docs_url : String
  redoc_url : String
  lifespan : Option (List (String × String) → Except String RedisPoolCfg) := none

/-- The startup action of the `lifespan` context manager in core/cache.py: it
attempts `get_redis_connection` and re-raises any failure, so registering it
would make a connection failure fatal at startup. -/
def cache_lifespan_startup (env : List (String × String)) :
    Except String RedisPoolCfg :=
  get_redis_connection env

/-- The `app = FastAPI(...)` object of endpoints.py. -/
def app : FastAPIApp :=
  { title := "Redis Cache API",
    description := "A Redis-based caching service for storing and retrieving JSON objects",
    version := "1.0.0",
    docs_url := "/docs",
    redoc_url := "/redoc" }

/-! ## Helper lemmas -/

/-- Looking up a freshly written key finds the new binding. -/
theorem redisLookup_cons_self (st : RedisState) (key : String) (e : Entry) :
    redisLookup ((key, e) :: st) key = some e := by
  simp [redisLookup, List.find?]

/-- No binding survives filtering out its own key. -/
theorem find?_filter_bne (l : List (String × Entry)) (key : String) :
    (l.filter (fun p => p.1 != key)).find? (fun p => p.1 == key) = none := by
  induction l with
  | nil => rfl
  | cons a l ih =>
      by_cases h : a.1 = key
      · simp only [List.filter_cons, bne_self_eq_false, h, if_neg Bool.false_ne_true]
        exact ih
      · have h1 : (a.1 != key) = true := by simp [h]
        rw [List.filter_cons, if_pos h1,
            List.find?_cons_of_neg _ (by simp [h])]
        exact ih

/-- After deleting a key, no binding for it remains. -/
theorem redisLookup_filter_self (st : RedisState) (key : String) :
    redisLookup (st.filter (fun p => p.1 != key)) key = none := by
  simp [redisLookup, find?_filter_bne]

/-- Reading a live, well-formed envelope: `get_from_cache` returns the `data`
and `cached_at` fields and the translated remaining TTL. -/
theorem get_from_cache_cons_envelope (st : RedisState) (key : String)
    (dd : JObj) (cs : String) (ov : JVal) (T now2 : Nat) (h : now2 < T) :
    get_from_cache
      ((key, Entry.mk
        (Stored.json [("data", JVal.obj dd), ("cached_at", JVal.str cs),
                      ("original_ttl", ov)]) (some T)) :: st) now2 key
    = Except.ok { key := key, data := dd, cached_at := cs,
                  ttl_remaining := some ((T : Int) - (now2 : Int)) } := by
  have hne : ¬ ((T : Int) - (now2 : Int) = -1) := by omega
  simp [get_from_cache, redisGet, redisTtl, redisLookup_cons_self, entryLive, h,
        if_neg hne, jLookup, List.find?]

/-! ## Claims -/

/-- Claim C1: for every valid key, JSON-object data, and positive TTL,
`store(key, data, ttl)` followed by `get(key)` at any instant within the TTL
window returns the same data object unchanged, and the `cached_at` value
returned by `get` equals the `cached_at` value that `store` recorded and
returned at write time. -/
theorem C1_store_then_get (st : RedisState) (now : Nat) (key : String)
    (data : JObj) (ttl : Int) (httl : 0 < ttl) :
    ∃ resp st2,
      store_in_cache st now { key := key, data := data, ttl_seconds := some ttl } =
        Except.ok (resp, st2) ∧
      resp.cached_at = isoformat now ∧
      ∀ now2 : Nat, now ≤ now2 → now2 < now + ttl.toNat →
        ∃ g, get_from_cache st2 now2 key = Except.ok g ∧
          g.data = data ∧ g.cached_at = resp.cached_at := by
  have hle : ¬ ttl ≤ 0 := not_le.mpr httl
  refine ⟨{ success := true, message := "Stored " ++ key ++ " in cache",
            key := key, ttl_seconds := some ttl, cached_at := isoformat now },
          (key, Entry.mk
            (Stored.json [("data", JVal.obj data),
                          ("cached_at", JVal.str (isoformat now)),
                          ("original_ttl", jvalOfOptInt (some ttl))])
            (some (now + ttl.toNat))) :: st,
          ?_, rfl, ?_⟩
  · simp [store_in_cache, redisSetex, if_neg hle]
  · intro now2 _ h2
    exact ⟨_, get_from_cache_cons_envelope st key data (isoformat now)
      (jvalOfOptInt (some ttl)) (now + ttl.toNat) now2 h2, rfl, rfl⟩

/-- Witness for C1: storing `acct-1` with data `[("a", 1)]` and TTL 2 at
instant 0, then reading at any instant before 2, returns the data and the
recorded timestamp. -/
theorem C1_store_then_get_witness :
    0 < (2 : Int) ∧
    (∃ resp st2,
      store_in_cache [] 0
          { key := "acct-1", data := [("a", JVal.int 1)], ttl_seconds := some 2 } =
        Except.ok (resp, st2) ∧
      resp.cached_at = isoformat 0 ∧
      ∀ now2 : Nat, 0 ≤ now2 → now2 < 0 + (2 : Int).toNat →
        ∃ g, get_from_cache st2 now2 "acct-1" = Except.ok g ∧
          g.data = [("a", JVal.int 1)] ∧ g.cached_at = resp.cached_at) :=
  ⟨by decide, C1_store_then_get [] 0 "acct-1" [("a", JVal.int 1)] 2 (by decide)⟩

/-- Claim C4: `delete` on a key currently present in the store returns success
and a subsequent `get` on that key fails with a 404 `NotFound`; `delete` on an
absent key fails with a 404 `NotFound` rather than silently succeeding. -/
theorem C4_delete_semantics :
    (∀ (st : RedisState) (now : Nat) (key : String),
      (redisGet st now key).isSome = true →
      ∃ resp st2, delete_from_cache st now key = Except.ok (resp, st2) ∧
        resp.success = true ∧
        get_from_cache st2 now key =
          Except.error { status_code := 404, detail := "Key " ++ key ++ " not found" }) ∧
    (∀ (st : RedisState) (now : Nat) (key : String),
      (redisGet st now key).isSome = false →
      delete_from_cache st now key =
        Except.error { status_code := 404, detail := "Key " ++ key ++ " not found in cache" }) := by
  constructor
  · intro st now key h
    refine ⟨{ success := true, message := "Deleted " ++ key ++ " from cache" },
            st.filter (fun p => p.1 != key), ?_, rfl, ?_⟩
    · simp [delete_from_cache, redisDelete, h]
    · simp [get_from_cache, redisGet, redisLookup_filter_self]
  · intro st now key h
    simp [delete_from_cache, redisDelete, h]

/-- Witness for C4: deleting the present key `k` succeeds and the follow-up
read is a 404; deleting from the empty store is a 404. -/
theorem C4_delete_semantics_witness :
    ((redisGet [("k", Entry.mk (Stored.json []) none)] 0 "k").isSome = true ∧
      ∃ resp st2,
        delete_from_cache [("k", Entry.mk (Stored.json []) none)] 0 "k" =
          Except.ok (resp, st2) ∧
        resp.success = true ∧
        get_from_cache st2 0 "k" =
          Except.error { status_code := 404, detail := "Key " ++ "k" ++ " not found" }) ∧
    ((redisGet [] 0 "k").isSome = false ∧
      delete_from_cache [] 0 "k" =
        Except.error { status_code := 404, detail := "Key " ++ "k" ++ " not found in cache" }) :=
  ⟨⟨by decide, C4_delete_semantics.1 [("k", Entry.mk (Stored.json []) none)] 0 "k" (by decide)⟩,
   ⟨by decide, C4_delete_semantics.2 [] 0 "k" (by decide)⟩⟩

/-- Counterexample to claim C3 as stated: a store request with TTL 0 is
answered with a 500 (the broad exception handler wrapping the backing-store
rejection), not a 400; and a store request with an empty key succeeds with a
200 — the Cache Access Layer performs no `InvalidArgument` validation at
all. -/
theorem C3_counterexample :
    responseStatus (store_in_cache [] 0 { key := "k", data := [], ttl_seconds := some 0 }) = 500 ∧
    responseStatus (store_in_cache [] 0 { key := "", data := [], ttl_seconds := some 60 }) = 200 :=
  ⟨rfl, rfl⟩

/-- Claim C3 (amended): a store request with a non-positive TTL fails, but
with a 500 response (the backing store rejects the expiry and the endpoint
wraps every exception as a 500), not a 400; a store request with an empty key
is not rejected at all — it is stored and answered with a 200. -/
theorem C3_amended_store_validation :
    (∀ (st : RedisState) (now : Nat) (key : String) (data : JObj) (t : Int),
      t ≤ 0 →
      responseStatus (store_in_cache st now { key := key, data := data, ttl_seconds := some t }) = 500) ∧
    (∀ (st : RedisState) (now : Nat) (data : JObj) (t : Int),
      0 < t →
      responseStatus (store_in_cache st now { key := "", data := data, ttl_seconds := some t }) = 200) := by
  constructor
  · intro st now key data t h
    simp [store_in_cache, redisSetex, if_pos h, responseStatus]
  · intro st now data t h
    simp [store_in_cache, redisSetex, if_neg (not_le.mpr h), responseStatus]

/-- Witness for the amended C3: TTL 0 on key `k` gives a 500; TTL 60 on the
empty key gives a 200. -/
theorem C3_amended_store_validation_witness :
    ((0 : Int) ≤ 0 ∧
      responseStatus (store_in_cache [] 0 { key := "k", data := [], ttl_seconds := some 0 }) = 500) ∧
    (0 < (60 : Int) ∧
      responseStatus (store_in_cache [] 0 { key := "", data := [], ttl_seconds := some 60 }) = 200) :=
  ⟨⟨by decide, C3_amended_store_validation.1 [] 0 "k" [] 0 (by decide)⟩,
   ⟨by decide, C3_amended_store_validation.2 [] 0 [] 60 (by decide)⟩⟩

/-- Claim C10: a store request whose body carries an explicit `null`
`ttl_seconds` (as opposed to omitting the field) does not receive the 3600
default — pydantic parses it to `None`, `setex` rejects the `None` expiry
while encoding, no entry is written, and the endpoint answers with a
500-class error. -/
theorem C10_explicit_null_ttl :
    parseTtl TtlField.null = none ∧
    parseTtl TtlField.omitted = some 3600 ∧
    ∀ (st : RedisState) (now : Nat) (key : String) (data : JObj),
      store_in_cache st now { key := key, data := data, ttl_seconds := parseTtl TtlField.null } =
        Except.error { status_code := 500,
                       detail := "Failed to store in cache: Invalid input of type NoneType" } :=
  ⟨rfl, rfl, fun _ _ _ _ => rfl⟩

/-- Claim C6: whatever the outcome of the backing-store interaction — a
successful ping or any connection/ping failure — the health endpoint returns
a 200 response describing healthy or degraded status and never propagates an
error. -/
theorem C6_health_never_5xx :
    ∀ (ping : Except String Unit) (now : Nat),
      responseStatus (health_check ping now) = 200 ∧
      ∃ fields, health_check ping now = Except.ok fields ∧
        ((dictGet fields "status" = some "healthy" ∧
          dictGet fields "redis" = some "connected") ∨
         (dictGet fields "status" = some "unhealthy" ∧
          dictGet fields "redis" = some "disconnected")) := by
  intro ping now
  cases ping with
  | ok u => exact ⟨rfl, _, rfl, Or.inl ⟨rfl, rfl⟩⟩
  | error e => exact ⟨rfl, _, rfl, Or.inr ⟨rfl, rfl⟩⟩

/-- Whenever `get_from_cache` succeeds, its `ttl_remaining` field is the
remaining TTL with the -1 sentinel translated to `none`. -/
theorem get_from_cache_ok_ttl (st : RedisState) (now : Nat) (key : String)
    (g : CacheResponse) (h : get_from_cache st now key = Except.ok g) :
    g.ttl_remaining =
      (if redisTtl st now key = -1 then none else some (redisTtl st now key)) := by
  unfold get_from_cache at h
  cases hget : redisGet st now key with
  | none => rw [hget] at h; exact Except.noConfusion h
  | some stored =>
      rw [hget] at h
      cases stored with
      | invalid => exact Except.noConfusion h
      | json j =>
          simp only at h
          rcases hd : jLookup j "data" with _ | d
          · rw [hd] at h; exact Except.noConfusion h
          · rw [hd] at h
            rcases hc : jLookup j "cached_at" with _ | c
            · rw [hc] at h; exact Except.noConfusion h
            · rw [hc] at h
              cases d <;> cases c <;> (try exact Except.noConfusion h)
              injection h with h2
              rw [← h2]

/-- Claim C5: for an existing key whose remaining-TTL query yields the no
expiry sentinel -1, both `get` and `exists` report `ttl_remaining` as
absent/null, and the raw integer -1 is never surfaced in any `get` or
`exists` response. -/
theorem C5_ttl_sentinel_translated :
    (∀ (st : RedisState) (now : Nat) (key : String) (e : Entry),
      redisLookup st key = some e → e.expireAt = none →
      check_key_exists st now key =
        Except.ok { key := key, exists_flag := true, ttl_field := some none } ∧
      ∀ g, get_from_cache st now key = Except.ok g → g.ttl_remaining = none) ∧
    (∀ (st : RedisState) (now : Nat) (key : String) (g : CacheResponse),
      get_from_cache st now key = Except.ok g → g.ttl_remaining ≠ some (-1)) ∧
    (∀ (st : RedisState) (now : Nat) (key : String) (r : ExistsResponse),
      check_key_exists st now key = Except.ok r → r.ttl_field ≠ some (some (-1))) := by
  refine ⟨?_, ?_, ?_⟩
  · intro st now key e hlook hexp
    have hlive : entryLive e now = true := by simp [entryLive, hexp]
    have httl : redisTtl st now key = -1 := by simp [redisTtl, hlook, hlive, hexp]
    constructor
    · simp [check_key_exists, redisExists, redisGet, hlook, hlive, httl]
    · intro g hg
      rw [get_from_cache_ok_ttl st now key g hg, httl]
      simp
  · intro st now key g hg
    rw [get_from_cache_ok_ttl st now key g hg]
    by_cases h1 : redisTtl st now key = -1
    · simp [h1]
    · simp [h1]
  · intro st now key r hr
    unfold check_key_exists at hr
    by_cases hex : redisExists st now key
    · rw [if_pos hex] at hr
      injection hr with h2
      rw [← h2]
      by_cases h1 : redisTtl st now key = -1
      · simp [h1]
      · simp [h1]
    · rw [if_neg hex] at hr
      injection hr with h2
      rw [← h2]
      simp

/-- Witness for C5: a key stored with no expiry reports `ttl_remaining` as
null on `exists` and as absent on a successful `get`, and neither endpoint
ever reports the raw -1 on the sample state. -/
theorem C5_ttl_sentinel_translated_witness :
    (redisLookup [("k", Entry.mk (Stored.json [("data", JVal.obj []), ("cached_at", JVal.str "0")]) none)] "k"
        = some (Entry.mk (Stored.json [("data", JVal.obj []), ("cached_at", JVal.str "0")]) none) ∧
      (Entry.mk (Stored.json [("data", JVal.obj []), ("cached_at", JVal.str "0")]) none).expireAt = none ∧
      (check_key_exists [("k", Entry.mk (Stored.json [("data", JVal.obj []), ("cached_at", JVal.str "0")]) none)] 5 "k" =
        Except.ok { key := "k", exists_flag := true, ttl_field := some none } ∧
      ∀ g, get_from_cache [("k", Entry.mk (Stored.json [("data", JVal.obj []), ("cached_at", JVal.str "0")]) none)] 5 "k" =
          Except.ok g → g.ttl_remaining = none)) ∧
    (∀ g, get_from_cache [("k", Entry.mk (Stored.json [("data", JVal.obj []), ("cached_at", JVal.str "0")]) none)] 5 "k" =
        Except.ok g → g.ttl_remaining ≠ some (-1)) :=
  ⟨⟨rfl, rfl,
    C5_ttl_sentinel_translated.1
      [("k", Entry.mk (Stored.json [("data", JVal.obj []), ("cached_at", JVal.str "0")]) none)] 5 "k"
      (Entry.mk (Stored.json [("data", JVal.obj []), ("cached_at", JVal.str "0")]) none) rfl rfl⟩,
   fun g hg => C5_ttl_sentinel_translated.2.1
      [("k", Entry.mk (Stored.json [("data", JVal.obj []), ("cached_at", JVal.str "0")]) none)] 5 "k" g hg⟩

/-- Claim C9: for a key whose stored value is not valid JSON, or is a JSON
document lacking the `data` or `cached_at` field, `get` fails with a
500-class `CorruptEntry`-style response, not a 404. -/
theorem C9_corrupt_entry_is_500 :
    (∀ (st : RedisState) (now : Nat) (key : String) (e : Entry),
      redisLookup st key = some e → entryLive e now = true →
      e.value = Stored.invalid →
      get_from_cache st now key =
        Except.error { status_code := 500, detail := "Invalid JSON data in cache" }) ∧
    (∀ (st : RedisState) (now : Nat) (key : String) (e : Entry) (j : JObj),
      redisLookup st key = some e → entryLive e now = true →
      e.value = Stored.json j → jLookup j "data" = none →
      get_from_cache st now key =
        Except.error { status_code := 500,
                       detail := "Failed to retrieve from cache: KeyError data" }) ∧
    (∀ (st : RedisState) (now : Nat) (key : String) (e : Entry) (j : JObj) (d : JVal),
      redisLookup st key = some e → entryLive e now = true →
      e.value = Stored.json j → jLookup j "data" = some d →
      jLookup j "cached_at" = none →
      get_from_cache st now key =
        Except.error { status_code := 500,
                       detail := "Failed to retrieve from cache: KeyError cached_at" }) := by
  refine ⟨?_, ?_, ?_⟩
  · intro st now key e hlook hlive hv
    simp [get_from_cache, redisGet, hlook, hlive, hv]
  · intro st now key e j hlook hlive hv hd
    simp [get_from_cache, redisGet, hlook, hlive, hv, hd]
  · intro st now key e j d hlook hlive hv hd hc
    simp [get_from_cache, redisGet, hlook, hlive, hv, hd, hc]

/-- Witness for C9: a non-JSON value, an envelope without `data`, and an
envelope without `cached_at` each make `get` answer 500. -/
theorem C9_corrupt_entry_is_500_witness :
    (redisLookup [("k", Entry.mk Stored.invalid none)] "k" = some (Entry.mk Stored.invalid none) ∧
      entryLive (Entry.mk Stored.invalid none) 0 = true ∧
      get_from_cache [("k", Entry.mk Stored.invalid none)] 0 "k" =
        Except.error { status_code := 500, detail := "Invalid JSON data in cache" }) ∧
    (jLookup [("x", JVal.null)] "data" = none ∧
      get_from_cache [("k", Entry.mk (Stored.json [("x", JVal.null)]) none)] 0 "k" =
        Except.error { status_code := 500,
                       detail := "Failed to retrieve from cache: KeyError data" }) ∧
    (jLookup [("data", JVal.obj [])] "cached_at" = none ∧
      get_from_cache [("k", Entry.mk (Stored.json [("data", JVal.obj [])]) none)] 0 "k" =
        Except.error { status_code := 500,
                       detail := "Failed to retrieve from cache: KeyError cached_at" }) :=
  ⟨⟨rfl, rfl,
    C9_corrupt_entry_is_500.1 [("k", Entry.mk Stored.invalid none)] 0 "k"
      (Entry.mk Stored.invalid none) rfl rfl rfl⟩,
   ⟨rfl,
    C9_corrupt_entry_is_500.2.1 [("k", Entry.mk (Stored.json [("x", JVal.null)]) none)] 0 "k"
      (Entry.mk (Stored.json [("x", JVal.null)]) none) [("x", JVal.null)] rfl rfl rfl rfl⟩,
   ⟨rfl,
    C9_corrupt_entry_is_500.2.2 [("k", Entry.mk (Stored.json [("data", JVal.obj [])]) none)] 0 "k"
      (Entry.mk (Stored.json [("data", JVal.obj [])]) none) [("data", JVal.obj [])]
      (JVal.obj []) rfl rfl rfl rfl rfl⟩⟩

/-- Claim C7: on each poll within the wall-clock budget, `COMPLETED` returns
the status payload; `FAILED` or `ERROR` raises a workflow-failure error
carrying the reported error message; every other status (including
unrecognized ones) continues polling; once the budget is exceeded without a
terminal status the loop raises a `Timeout` error, which is distinct from a
workflow-reported failure. -/
theorem C7_poll_loop_semantics :
    (∀ (s : StatusData) (rest : List StatusData) (interval maxWait n : Nat),
      n * interval < maxWait → dictGet s "status" = some "COMPLETED" →
      pollGo interval maxWait (s :: rest) n = PollResult.completed s) ∧
    (∀ (s : StatusData) (rest : List StatusData) (interval maxWait n : Nat)
        (stv : String),
      n * interval < maxWait → dictGet s "status" = some stv →
      (stv = "FAILED" ∨ stv = "ERROR") →
      pollGo interval maxWait (s :: rest) n =
        PollResult.failed ("Workflow failed: " ++ pyStrOpt (dictGet s "error"))) ∧
    (∀ (s : StatusData) (rest : List StatusData) (interval maxWait n : Nat)
        (stv : String),
      n * interval < maxWait → (dictGet s "status").getD "UNKNOWN" = stv →
      stv ≠ "COMPLETED" → stv ≠ "FAILED" → stv ≠ "ERROR" →
      pollGo interval maxWait (s :: rest) n = pollGo interval maxWait rest (n + 1)) ∧
    (∀ (ss : List StatusData) (interval maxWait n : Nat),
      maxWait ≤ n * interval →
      pollGo interval maxWait ss n = PollResult.timeout) ∧
    (∀ msg : String, PollResult.failed msg ≠ PollResult.timeout) := by
  refine ⟨?_, ?_, ?_, ?_, ?_⟩
  · intro s rest interval maxWait n hb hst
    simp [pollGo, if_pos hb, hst]
  · intro s rest interval maxWait n stv hb hst hterm
    rcases hterm with h | h <;> subst h <;> simp [pollGo, if_pos hb, hst]
  · intro s rest interval maxWait n stv hb hst h1 h2 h3
    simp [pollGo, if_pos hb, hst, h1, h2, h3]
  · intro ss interval maxWait n hb
    have hnb : ¬ n * interval < maxWait := not_lt.mpr hb
    cases ss <;> simp [pollGo, if_neg hnb]
  · intro msg h
    exact PollResult.noConfusion h

/-- Witness for C7: concrete polls at interval 5 with budget 3600 — a
`COMPLETED` poll returns its payload, a `FAILED` poll raises with the
reported message, a `RUNNING` poll continues, and a zero budget times out. -/
theorem C7_poll_loop_semantics_witness :
    (0 * 5 < 3600 ∧
      pollGo 5 3600 [[("status", "COMPLETED")]] 0 =
        PollResult.completed [("status", "COMPLETED")]) ∧
    (pollGo 5 3600 [[("status", "FAILED"), ("error", "boom")]] 0 =
      PollResult.failed "Workflow failed: boom") ∧
    (pollGo 5 3600 [[("status", "RUNNING")], [("status", "COMPLETED")]] 0 =
      pollGo 5 3600 [[("status", "COMPLETED")]] 1) ∧
    (3600 ≤ 720 * 5 ∧ pollGo 5 3600 [[("status", "RUNNING")]] 720 = PollResult.timeout) ∧
    PollResult.failed "Workflow failed: boom" ≠ PollResult.timeout :=
  ⟨⟨by decide, C7_poll_loop_semantics.1 [("status", "COMPLETED")] [] 5 3600 0
      (by decide) rfl⟩,
   C7_poll_loop_semantics.2.1 [("status", "FAILED"), ("error", "boom")] [] 5 3600 0
      "FAILED" (by decide) rfl (Or.inl rfl),
   C7_poll_loop_semantics.2.2.1 [("status", "RUNNING")] [[("status", "COMPLETED")]]
      5 3600 0 "RUNNING" (by decide) rfl (by decide) (by decide) (by decide),
   ⟨by decide, C7_poll_loop_semantics.2.2.2.1 [[("status", "RUNNING")]] 5 3600 720
      (by decide)⟩,
   C7_poll_loop_semantics.2.2.2.2 "Workflow failed: boom"⟩

/-- Claim C2 (code bug finding): the coordinator stores the placeholder only
when `health.get("redis_connected") == "connected"`, but the health endpoint
emits the field `redis`, never `redis_connected`; so for every health-probe
outcome the condition is false and the placeholder is never written.  In the
scenario of a job reporting RUNNING twice then COMPLETED against a healthy
cache, the trace contains no store operation, one delete, and the COMPLETED
payload is returned — diverging from the claimed write-once behavior. -/
theorem C2_placeholder_never_stored :
    (∀ (ping : Except String Unit) (now : Nat),
      dictGet (health_check_fields ping now) "redis_connected" = none) ∧
    run_workflow_with_cache (Except.ok "run-1") (Except.ok ()) 0
      [[("status", "RUNNING")], [("status", "RUNNING")], [("status", "COMPLETED")]]
      "20000000" "12345678"
    = WfOutcome.ok [("status", "COMPLETED")] [CacheOp.deleteOp "20000000-12345678"] := by
  refine ⟨?_, rfl⟩
  intro ping now
  cases ping <;> rfl

/-- Claim C8 (code bug finding): endpoints.py builds its `FastAPI` app
without registering the lifespan manager of core/cache.py, so no connection
is attempted at startup at all; when host and port are absent from the
environment, `get_redis_connection` (and hence the unregistered startup hook,
had it been wired) fails by raising while parsing the port component "None"
of the interpolated URL — the failure therefore surfaces only on the first
request, not at startup. -/
theorem C8_startup_connection_not_attempted :
    app.lifespan = none ∧
    get_redis_connection [] =
      Except.error "Port could not be cast to integer value as None" ∧
    cache_lifespan_startup [] =
      Except.error "Port could not be cast to integer value as None" :=
  ⟨rfl, rfl, rfl⟩

end EnsembleCache
